import Mathlib

/-!
Verification development for the TradeBot technical-analysis core.

Shallow embedding of two source files:

* `backend/services/technical_analysis_services.py` — namespace `TAS`
  (the service actually driven by `analyze_symbol`);
* `backend/app/services/technical_analysis.py` — namespace `AppTA`
  (the variant holding the pattern detectors `_detect_head_and_shoulders`,
  `_detect_double_top_bottom`, and `_determine_trend` / `_assess_risk`).

Modelling conventions:

* Python floats are modelled as exact rationals (`ℚ`).  The only genuinely
  irrational operation — the square root inside the Bollinger band width —
  is modelled with `Real.sqrt` on top of a computable rational core.
* A value that the Python code leaves as `None` (or converts from NaN to
  `None`) is `Option.none`; a raised exception is `Except.error`.
* Formatted report strings (`analysis_text`, f-string signal reasons) carry
  no information used by any claim; signal reasons are embedded as tagged
  values (`SignalReason`) and `analysis_text` is omitted.
-/

/-- Python `max(l)` on a nonempty list; every call site below passes a
nonempty slice (Python `max` raises on an empty one, and the `[]` case is
unreachable). -/
def listMax : List ℚ → ℚ
  | [] => 0
  | x :: xs => xs.foldl max x

/-- Python `min(l)` on a nonempty list; see `listMax`. -/
def listMin : List ℚ → ℚ
  | [] => 0
  | x :: xs => xs.foldl min x

/-- Python slice `xs[-n:]` for `n > 0`: the last `n` elements, or the whole
list when it is shorter than `n`. -/
def lastN (n : ℕ) (xs : List α) : List α := xs.drop (xs.length - n)

/-- One step of the pandas `ewm(span=...).mean()` recurrence with the default
`adjust=True`; the state is the pair (weighted numerator, weight sum). -/
def ewmStep (alpha : ℚ) (st : ℚ × ℚ) (x : ℚ) : ℚ × ℚ :=
  (x + (1 - alpha) * st.1, 1 + (1 - alpha) * st.2)

/-- pandas `Series.ewm(span=span).mean()` with `adjust=True`:
`y_t = (Σ_i (1-α)^(t-i) x_i) / (Σ_i (1-α)^(t-i))` where `α = 2/(span+1)`. -/
def ewmSeries (span : ℕ) (xs : List ℚ) : List ℚ :=
  let alpha : ℚ := 2 / (span + 1)
  (xs.foldl
    (fun acc x =>
      let st := ewmStep alpha acc.2 x
      (acc.1 ++ [st.1 / st.2], st))
    (([] : List ℚ), ((0 : ℚ), (0 : ℚ)))).1

/-- Sample variance (`ddof = 1`, as pandas `rolling(...).std()` uses) of a
window, as an exact rational; the band function takes its real square root. -/
def sampleVar (xs : List ℚ) : ℚ :=
  let m := xs.sum / (xs.length : ℚ)
  (xs.map (fun x => (x - m) ^ 2)).sum / ((xs.length - 1 : ℕ) : ℚ)

/-- One OHLCV candle, a parsed row of `fetch_kline_data` (timestamp is never
read by the analysis code and is omitted). -/
structure Candle where
  «open» : ℚ
  high : ℚ
  low : ℚ
  close : ℚ
  volume : ℚ
deriving DecidableEq

inductive SignalType where
  | buy
  | sell
deriving DecidableEq

inductive SignalStrength where
  | weak
  | medium
  | strong
deriving DecidableEq

/-- The `reason` strings attached to signals, as structured tags; the Python
code stores formatted strings, and only their identity matters to the spec. -/
inductive SignalReason where
  | rsiOversold (rsi : ℚ)
  | rsiOverbought (rsi : ℚ)
  | macdAbove
  | macdBelow
  | emaUp
  | emaDown
deriving DecidableEq

structure Signal where
  type : SignalType
  strength : SignalStrength
  reason : SignalReason
deriving DecidableEq

/-- The `pattern_data` payload of a detected pattern (peak indices/prices or
the tested level). -/
inductive PatternData where
  | supportLevel (level : ℚ)
  | resistanceLevel (level : ℚ)
  | headShoulders (head leftShoulder rightShoulder : ℕ × ℚ)
  | doubleTopPeaks (firstPeak secondPeak : ℕ × ℚ)
deriving DecidableEq

structure PatternMatch where
  pattern_type : String
  confidence : ℚ
  description : String
  pattern_data : PatternData
deriving DecidableEq

structure KeyLevels where
  support_levels : List ℚ
  resistance_levels : List ℚ
  pivot_point : Option ℚ
deriving DecidableEq

/-- The dict returned by the services `generate_analysis` (its
`analysis_text` entry is formatted prose and is omitted, see the header). -/
structure SvcAnalysis where
  signals : List Signal
  key_levels : KeyLevels
  trend_direction : String
  risk_level : String
deriving DecidableEq

namespace TAS

/-- `calculate_rsi` (period fixed at its default 14).

pandas detail that matters: `delta.where(delta > 0, 0)` maps the leading NaN
of `Series.diff()` to `0` (`NaN > 0` is `False`), so the gain/loss series
has no NaN at all and the 14-wide rolling mean is already defined once the
series holds 14 prices (13 real deltas plus the coerced leading zero).
For fewer than 14 prices the rolling window is underfull and the final value
is NaN, which the source converts to `None`; the empty series raises inside
the `try` and is also converted to `None`. `loss.replace(0, eps)` with
`eps = np.finfo(float).eps = 2⁻⁵²` guards the division. -/
def calculate_rsi (prices : List ℚ) : Option ℚ :=
  if prices.length < 14 then none
  else
    let gl := (List.range prices.length).map fun i =>
      if i = 0 then ((0 : ℚ), (0 : ℚ))
      else
        let d := prices.getD i 0 - prices.getD (i - 1) 0
        (max d 0, max (-d) 0)
    let w := lastN 14 gl
    let gain := (w.map (·.1)).sum / 14
    let loss := (w.map (·.2)).sum / 14
    let lossGuard := if loss = 0 then 1 / 2 ^ 52 else loss
    some (100 - 100 / (1 + gain / lossGuard))

/-- `calculate_macd`: `(macd, signal, histogram)` from EMA(12)−EMA(26) with a
9-span signal line; all absent below 26 observations. -/
def calculate_macd (prices : List ℚ) : Option (ℚ × ℚ × ℚ) :=
  if prices.length < 26 then none
  else
    let ema12 := ewmSeries 12 prices
    let ema26 := ewmSeries 26 prices
    let macd := ema12.zipWith (· - ·) ema26
    let signal := ewmSeries 9 macd
    let histogram := macd.zipWith (· - ·) signal
    some (macd.getLastD 0, signal.getLastD 0, histogram.getLastD 0)

/-- Rational core of `calculate_bollinger_bands`: the final SMA(20) and the
final rolling sample variance of the closing prices. -/
def bollinger_core (prices : List ℚ) : Option (ℚ × ℚ) :=
  if prices.length < 20 then none
  else
    let w := lastN 20 prices
    some (w.sum / 20, sampleVar w)

/-- `calculate_bollinger_bands`: `(upper, middle, lower) =
(sma + 2·std, sma, sma − 2·std)` with `std = √(sample variance)`; all three
absent below the 20-observation period. -/
noncomputable def calculate_bollinger_bands (prices : List ℚ) : Option (ℝ × ℝ × ℝ) :=
  (bollinger_core prices).map fun p =>
    ((p.1 : ℝ) + 2 * Real.sqrt (p.2 : ℝ), (p.1 : ℝ), (p.1 : ℝ) - 2 * Real.sqrt (p.2 : ℝ))

/-- The dict returned by `calculate_moving_averages`. -/
structure MovingAverages where
  ema_20 : Option ℚ
  ema_50 : Option ℚ
  sma_20 : Option ℚ
  sma_50 : Option ℚ
deriving DecidableEq

/-- `calculate_moving_averages`: each average independently absent below its
own period; the EMAs are computed over the whole series (pandas `ewm`). -/
def calculate_moving_averages (prices : List ℚ) : MovingAverages where
  ema_20 := if 20 ≤ prices.length then some ((ewmSeries 20 prices).getLastD 0) else none
  ema_50 := if 50 ≤ prices.length then some ((ewmSeries 50 prices).getLastD 0) else none
  sma_20 := if 20 ≤ prices.length then some ((lastN 20 prices).sum / 20) else none
  sma_50 := if 50 ≤ prices.length then some ((lastN 50 prices).sum / 50) else none

/-- `detect_patterns` of the services file: support/resistance proximity
tests against the 10-bar window, gated on at least 20 candles. -/
def detect_patterns (df : List Candle) : List PatternMatch :=
  if df.length < 20 then []
  else
    let high := df.map (·.high)
    let low := df.map (·.low)
    let close := df.map (·.close)
    let recent_high := listMax (lastN 10 high)
    let recent_low := listMin (lastN 10 low)
    let current_price := close.getLastD 0
    (if |current_price - recent_low| / recent_low < 2 / 100 then
      [⟨"support_test", 7 / 10, "Price testing support level", .supportLevel recent_low⟩]
    else []) ++
    (if |current_price - recent_high| / recent_high < 2 / 100 then
      [⟨"resistance_test", 7 / 10, "Price testing resistance level",
        .resistanceLevel recent_high⟩]
    else [])

/-- `_calculate_key_levels`.  On an empty frame `np.max` raises and the
`except` branch returns empty level lists with a `None` pivot. -/
def calculate_key_levels (df : List Candle) : KeyLevels :=
  match df with
  | [] => ⟨[], [], none⟩
  | d :: ds =>
    let recent_high := listMax (lastN 20 ((d :: ds).map (·.high)))
    let recent_low := listMin (lastN 20 ((d :: ds).map (·.low)))
    let close := ((d :: ds).map (·.close)).getLastD 0
    ⟨[recent_low, close * (95 / 100)],
     [recent_high, close * (105 / 100)],
     some ((recent_high + recent_low + close) / 3)⟩

/-- The flattened indicator values that `generate_analysis` actually reads
(after its nested-dict access: `macd_data['macd']`, `macd_data['signal']`,
`moving_averages['ema_20']`, `moving_averages['ema_50']`). -/
structure SvcIndicators where
  rsi : Option ℚ
  macd : Option ℚ
  signal : Option ℚ
  ema_20 : Option ℚ
  ema_50 : Option ℚ
deriving DecidableEq

/-- RSI block of the services `generate_analysis` (`is not None` check,
then the 30/70 thresholds). -/
def rsi_signals (rsi : Option ℚ) : List Signal :=
  match rsi with
  | none => []
  | some r =>
    if r < 30 then [⟨.buy, .strong, .rsiOversold r⟩]
    else if r > 70 then [⟨.sell, .strong, .rsiOverbought r⟩]
    else []

/-- MACD block of the services `generate_analysis` (`is not None` checks;
an exact tie emits the sell branch). -/
def macd_signals (macd signal : Option ℚ) : List Signal :=
  match macd, signal with
  | some m, some s =>
    if m > s then [⟨.buy, .medium, .macdAbove⟩] else [⟨.sell, .medium, .macdBelow⟩]
  | _, _ => []

/-- Trend block of the services `generate_analysis`: 1% hysteresis band,
`sideways` whenever either EMA is `None` (`is not None` checks, no
truthiness here). -/
def trend_of (ema_20 ema_50 : Option ℚ) : String :=
  match ema_20, ema_50 with
  | some a, some b =>
    if a > b * (101 / 100) then "bullish"
    else if a < b * (99 / 100) then "bearish"
    else "sideways"
  | _, _ => "sideways"

/-- The literal result of the `except` branch of the services
`generate_analysis` (its `key_levels` entry is the empty dict). -/
def fallback_analysis : SvcAnalysis :=
  ⟨[], ⟨[], [], none⟩, "unknown", "high"⟩

/-- `generate_analysis` of the services file.  `current_price =
df['close'].iloc[-1]` is executed before the `try` block, so an empty frame
raises `IndexError` to the caller; inside the `try` every step is total on
well-typed inputs, so the `except` branch (`fallback_analysis`) is
unreachable there.  The `patterns` argument is accepted but never read by
the source body; `risk_level` is the hard-coded `'medium'`. -/
def generate_analysis (ind : SvcIndicators) (patterns : List PatternMatch)
    (df : List Candle) : Except String SvcAnalysis :=
  match df with
  | [] => .error "IndexError"
  | _ :: _ =>
    .ok
      { signals := rsi_signals ind.rsi ++ macd_signals ind.macd ind.signal
        key_levels := calculate_key_levels df
        trend_direction := trend_of ind.ema_20 ind.ema_50
        risk_level := "medium" }

/-- Failure modes of one `analyze_symbol` run after a successful fetch. -/
inductive AnalyzeError where
  | insufficientData
  | internalError (msg : String)
deriving DecidableEq

/-- Everything one successful `analyze_symbol` run returns (the `bollinger`
field carries the rational `bollinger_core` payload; the real-valued bands
are `calculate_bollinger_bands` applied to the same closes). -/
structure RunResult where
  rsi : Option ℚ
  macd : Option (ℚ × ℚ × ℚ)
  bollinger : Option (ℚ × ℚ)
  moving_averages : MovingAverages
  volume_sma : ℚ
  patterns : List PatternMatch
  analysis : SvcAnalysis
deriving DecidableEq

/-- The data-dependent core of `analyze_symbol`, taking the already fetched
candle series (the fetch itself, and the database write after the analysis,
are I/O and outside the embedding). -/
def analyze_symbol (df : List Candle) : Except AnalyzeError RunResult :=
  if df.length < 10 then .error .insufficientData
  else
    let closes := df.map (·.close)
    let rsi := calculate_rsi closes
    let macd_data := calculate_macd closes
    let bb_data := bollinger_core closes
    let ma_data := calculate_moving_averages closes
    let volume_sma := (lastN (min 20 df.length) (df.map (·.volume))).sum /
      ((min 20 df.length : ℕ) : ℚ)
    let patterns := detect_patterns df
    let ind : SvcIndicators :=
      ⟨rsi, macd_data.map (·.1), macd_data.map (·.2.1), ma_data.ema_20, ma_data.ema_50⟩
    match generate_analysis ind patterns df with
    | .ok analysis => .ok ⟨rsi, macd_data, bb_data, ma_data, volume_sma, patterns, analysis⟩
    | .error e => .error (.internalError e)

end TAS

namespace AppTA

/-- Peak extraction shared by `_detect_head_and_shoulders` and
`_detect_double_top_bottom`: `i` ranges over `range(10, len(high) - 10)` and
is a peak when `high[i]` strictly exceeds the maxima of `high[i-10:i]` and
`high[i+1:i+11]` (both slices are full 10-wide windows in that range). -/
def peaks (high : List ℚ) : List (ℕ × ℚ) :=
  (List.range high.length).filterMap fun i =>
    if 10 ≤ i ∧ i + 10 < high.length then
      let hi := high.getD i 0
      if listMax ((high.drop (i - 10)).take 10) < hi ∧
          listMax ((high.drop (i + 1)).take 10) < hi then
        some (i, hi)
      else none
    else none

/-- Stable insertion of one peak into a price-descending list: the new
element goes after every element whose price is at least as large, so equal
prices keep their original order. -/
def insert_desc (x : ℕ × ℚ) : List (ℕ × ℚ) → List (ℕ × ℚ)
  | [] => [x]
  | y :: ys => if y.2 < x.2 then x :: y :: ys else y :: insert_desc x ys

/-- Python `peaks.sort(key=lambda x: x[1], reverse=True)`: a stable sort by
price descending (Timsort is stable, and every stable sort by the same key
produces the same list). -/
def sort_desc (ps : List (ℕ × ℚ)) : List (ℕ × ℚ) :=
  ps.foldl (fun acc x => insert_desc x acc) []

/-- `_detect_head_and_shoulders`: below 30 candles nothing is emitted; with
at least 3 extracted peaks, sorted by price descending, a single match with
confidence 0.75 is emitted when the highest peak's index is strictly
greater than both the second- and the third-highest peaks' indices
(`peaks[0][0] > peaks[1][0] and peaks[0][0] > peaks[2][0]`). -/
def detect_head_and_shoulders (high : List ℚ) : List PatternMatch :=
  if high.length < 30 then []
  else
    match sort_desc (peaks high) with
    | p0 :: p1 :: p2 :: _ =>
      if p1.1 < p0.1 ∧ p2.1 < p0.1 then
        [⟨"head_and_shoulders", 3 / 4,
          "Head and Shoulders pattern detected - bearish reversal signal",
          .headShoulders p0 p1 p2⟩]
      else []
    | _ => []

/-- The qualifying condition of the double-top inner loop: relative price
difference below 2%, with the earlier peak's price as denominator. -/
def dt_close (p q : ℕ × ℚ) : Bool :=
  decide (|p.2 - q.2| / p.2 < 2 / 100)

/-- `_detect_double_top_bottom`: for each `i` in `range(len(peaks) - 1)` the
inner loop scans `j > i` and `break`s after the first qualifying pair — the
`break` leaves only the inner loop, so each `i` with a qualifying later peak
contributes one match. -/
def detect_double_top_bottom (high : List ℚ) : List PatternMatch :=
  let ps := peaks high
  (List.range (ps.length - 1)).filterMap fun i =>
    let p := ps.getD i (0, 0)
    ((ps.drop (i + 1)).find? (dt_close p)).map fun q =>
      ⟨"double_top", 7 / 10,
        "Double Top pattern detected - bearish reversal signal",
        .doubleTopPeaks p q⟩

/-- Python truthiness of an optional float: `None` and `0.0` are falsy
(`if indicators.get(...):`). -/
def truthy : Option ℚ → Bool
  | none => false
  | some x => decide (x ≠ 0)

/-- `_determine_trend`: truthiness guard, then a 2% band
(`* 1.02` / `* 0.98`), `sideways` otherwise. -/
def determine_trend (ema_20 ema_50 : Option ℚ) : String :=
  if truthy ema_20 ∧ truthy ema_50 then
    if ema_20.getD 0 > ema_50.getD 0 * (102 / 100) then "bullish"
    else if ema_20.getD 0 < ema_50.getD 0 * (98 / 100) then "bearish"
    else "sideways"
  else "sideways"

/-- `_assess_risk`: one risk factor per detected head-and-shoulders or
double-top (the indicator argument only feeds a `pass` branch and is
dropped); `≥ 2 → high`, `1 → medium`, `0 → low`. -/
def assess_risk (patterns : List PatternMatch) : String :=
  let risk_factors := patterns.countP fun p =>
    p.pattern_type == "head_and_shoulders" || p.pattern_type == "double_top"
  if 2 ≤ risk_factors then "high"
  else if risk_factors = 1 then "medium"
  else "low"

/-- Moving-average block of the app `generate_analysis`: truthiness guard on
both EMAs, then a plain `>` comparison — a buy/medium "upward trend" signal
or a sell/medium "downward trend" signal, one of the two always emitted when
both EMAs are truthy. -/
def ma_signals (ema_20 ema_50 : Option ℚ) : List Signal :=
  if truthy ema_20 ∧ truthy ema_50 then
    if ema_20.getD 0 > ema_50.getD 0 then [⟨.buy, .medium, .emaUp⟩]
    else [⟨.sell, .medium, .emaDown⟩]
  else []

end AppTA

/-! ### Concrete inputs used by counterexamples and witnesses -/

/-- A single well-formed candle. -/
def c0 : Candle := ⟨100, 110, 90, 105, 1000⟩

/-- An indicator snapshot with every value absent. -/
def ind0 : TAS.SvcIndicators := ⟨none, none, none, none, none⟩

/-- Ten candles with strictly increasing closes 100..109 (high = low = close),
the 10-point series of claim C4. -/
def tc10 : List Candle :=
  [⟨100, 100, 100, 100, 1⟩, ⟨101, 101, 101, 101, 1⟩, ⟨102, 102, 102, 102, 1⟩,
   ⟨103, 103, 103, 103, 1⟩, ⟨104, 104, 104, 104, 1⟩, ⟨105, 105, 105, 105, 1⟩,
   ⟨106, 106, 106, 106, 1⟩, ⟨107, 107, 107, 107, 1⟩, ⟨108, 108, 108, 108, 1⟩,
   ⟨109, 109, 109, 109, 1⟩]

/-- A 43-point high series with local peaks at indices 10, 21 and 32 of
heights 2, 3 and 2: the tallest peak lies strictly between the two others. -/
def highBetween : List ℚ :=
  [1, 1, 1, 1, 1, 1, 1, 1, 1, 1, 2,
   1, 1, 1, 1, 1, 1, 1, 1, 1, 1, 3,
   1, 1, 1, 1, 1, 1, 1, 1, 1, 1, 2,
   1, 1, 1, 1, 1, 1, 1, 1, 1, 1]

/-- A 43-point high series with peaks at 10, 21, 32 of heights 2, 5/2 and 3:
the tallest peak comes after both shorter ones. -/
def highHeadLast : List ℚ :=
  [1, 1, 1, 1, 1, 1, 1, 1, 1, 1, 2,
   1, 1, 1, 1, 1, 1, 1, 1, 1, 1, 5 / 2,
   1, 1, 1, 1, 1, 1, 1, 1, 1, 1, 3,
   1, 1, 1, 1, 1, 1, 1, 1, 1, 1]

/-- A 43-point high series with three equal-height peaks at 10, 21 and 32:
every pair is within 2%, so two double-top matches are emitted. -/
def highTriplePeak : List ℚ :=
  [1, 1, 1, 1, 1, 1, 1, 1, 1, 1, 2,
   1, 1, 1, 1, 1, 1, 1, 1, 1, 1, 2,
   1, 1, 1, 1, 1, 1, 1, 1, 1, 1, 2,
   1, 1, 1, 1, 1, 1, 1, 1, 1, 1]

/-- 14 closing prices with one down-move; enough for the code's RSI. -/
def p14 : List ℚ := [10, 11, 9, 10, 11, 12, 13, 14, 15, 16, 17, 18, 19, 20]

/-- A 3-point series, too short for every indicator. -/
def p3 : List ℚ := [1, 2, 3]

/-- 20 identical prices: a full Bollinger window with zero variance. -/
def p20flat : List ℚ := List.replicate 20 1

/-- A single candle with `low ≤ close ≤ high`. -/
def c9w : Candle := ⟨1, 3, 1, 2, 5⟩

/-! ### C1 — trend classification -/

/-- C1 counterexample: the claim says every present EMA pair is classified
with the 1% band, so `ema_20 = 102, ema_50 = 100` must be `bullish`; the app
service's `_determine_trend` (one of the claim's two cited sources) uses a
2% band and returns `sideways` there. -/
theorem C1_counterexample :
    (102 : ℚ) > 100 * (101 / 100) ∧
    AppTA.determine_trend (some 102) (some 100) ≠ "bullish" := by
  constructor
  · norm_num
  · with_unfolding_all decide

/-- C1 (amended): in the services `generate_analysis` the trend of a present
EMA pair with positive `ema_50` is `bullish` iff `ema_20 > ema_50 × 1.01`,
`bearish` iff `ema_20 < ema_50 × 0.99`, `sideways` iff it lies in the band,
and `sideways` whenever either EMA is absent; the app service's
`_determine_trend` instead uses a 2% band (and treats a zero EMA as absent):
`bullish` iff `ema_20 > ema_50 × 1.02`, `bearish` iff `ema_20` is nonzero
and `ema_20 < ema_50 × 0.98`. -/
theorem C1_trend_hysteresis (a b : ℚ) (o : Option ℚ) (hb : 0 < b) :
    (TAS.trend_of (some a) (some b) = "bullish" ↔ b * (101 / 100) < a) ∧
    (TAS.trend_of (some a) (some b) = "bearish" ↔ a < b * (99 / 100)) ∧
    (TAS.trend_of (some a) (some b) = "sideways" ↔
      b * (99 / 100) ≤ a ∧ a ≤ b * (101 / 100)) ∧
    TAS.trend_of none o = "sideways" ∧
    TAS.trend_of o none = "sideways" ∧
    (AppTA.determine_trend (some a) (some b) = "bullish" ↔ b * (102 / 100) < a) ∧
    (AppTA.determine_trend (some a) (some b) = "bearish" ↔
      a ≠ 0 ∧ a < b * (98 / 100)) := by
  refine ⟨?_, ?_, ?_, ?_, ?_, ?_, ?_⟩
  · simp only [TAS.trend_of]
    split_ifs with h1 h2
    · exact iff_of_true rfl h1
    · exact iff_of_false (by decide) h1
    · exact iff_of_false (by decide) h1
  · simp only [TAS.trend_of]
    split_ifs with h1 h2
    · exact iff_of_false (by decide) (fun h => by nlinarith)
    · exact iff_of_true rfl h2
    · exact iff_of_false (by decide) h2
  · simp only [TAS.trend_of]
    split_ifs with h1 h2
    · exact iff_of_false (by decide) (fun h => absurd h1 (not_lt.mpr h.2))
    · exact iff_of_false (by decide) (fun h => absurd h2 (not_lt.mpr h.1))
    · exact iff_of_true rfl ⟨not_lt.mp h2, not_lt.mp h1⟩
  · rfl
  · cases o <;> rfl
  · by_cases ha : a = 0
    · subst ha
      have he : AppTA.determine_trend (some 0) (some b) = "sideways" := by
        simp [AppTA.determine_trend, AppTA.truthy]
      rw [he]
      exact iff_of_false (by decide) (fun h => by nlinarith)
    · have hb0 : b ≠ 0 := ne_of_gt hb
      simp only [AppTA.determine_trend, AppTA.truthy, Option.getD_some, decide_eq_true_eq]
      rw [if_pos ⟨ha, hb0⟩]
      split_ifs with h1 h2
      · exact iff_of_true rfl h1
      · exact iff_of_false (by decide) h1
      · exact iff_of_false (by decide) h1
  · by_cases ha : a = 0
    · subst ha
      have he : AppTA.determine_trend (some 0) (some b) = "sideways" := by
        simp [AppTA.determine_trend, AppTA.truthy]
      rw [he]
      exact iff_of_false (by decide) (fun h => h.1 rfl)
    · have hb0 : b ≠ 0 := ne_of_gt hb
      simp only [AppTA.determine_trend, AppTA.truthy, Option.getD_some, decide_eq_true_eq]
      rw [if_pos ⟨ha, hb0⟩]
      split_ifs with h1 h2
      · exact iff_of_false (by decide) (fun h => by nlinarith [h.2])
      · exact iff_of_true rfl ⟨ha, h2⟩
      · exact iff_of_false (by decide) (fun h => h2 h.2)

/-- C1 witness: the amended characterization applied at the spec's own
example `ema_20 = 102, ema_50 = 100`. -/
theorem C1_witness :
    (0 : ℚ) < 100 ∧
    (TAS.trend_of (some 102) (some 100) = "bullish" ↔ (100 : ℚ) * (101 / 100) < 102) :=
  ⟨by norm_num, (C1_trend_hysteresis 102 100 none (by norm_num)).1⟩

/-! ### C2 — head-and-shoulders detection -/

set_option maxRecDepth 100000 in
/-- C2 counterexample: `highBetween` has exactly the three peaks
`(10, 2), (21, 3), (32, 2)` — the tallest lies strictly between the other
two, so the claim demands one match — yet `_detect_head_and_shoulders`
emits nothing: its accept condition is `peaks[0][0] > peaks[1][0] and
peaks[0][0] > peaks[2][0]`, which requires the tallest peak to come after
both others. -/
theorem C2_counterexample :
    AppTA.peaks highBetween = [(10, 2), (21, 3), (32, 2)] ∧
    (10 : ℕ) < 21 ∧ (21 : ℕ) < 32 ∧
    AppTA.detect_head_and_shoulders highBetween = [] := by
  with_unfolding_all decide

/-- C2 (amended): for series of length ≥ 30, after sorting the extracted
peaks by price descending (stably), a single `head_and_shoulders` match with
confidence exactly 0.75 is emitted iff there are at least 3 peaks and the
highest peak's index is strictly greater than the indices of both the
second- and third-highest peaks (not "strictly between" them); at most one
match is ever emitted, and below 30 observations none is. -/
theorem C2_head_shoulders (high : List ℚ) :
    (AppTA.detect_head_and_shoulders high).length ≤ 1 ∧
    (∀ m ∈ AppTA.detect_head_and_shoulders high,
      m.pattern_type = "head_and_shoulders" ∧ m.confidence = 3 / 4) ∧
    (AppTA.detect_head_and_shoulders high ≠ [] ↔
      30 ≤ high.length ∧ ∃ p0 p1 p2 rest,
        AppTA.sort_desc (AppTA.peaks high) = p0 :: p1 :: p2 :: rest ∧
        p1.1 < p0.1 ∧ p2.1 < p0.1) := by
  unfold AppTA.detect_head_and_shoulders
  split_ifs with hlen
  · refine ⟨by simp, by simp, ?_⟩
    constructor
    · intro hne
      exact absurd rfl hne
    · rintro ⟨h30, -⟩
      omega
  · rcases hs : AppTA.sort_desc (AppTA.peaks high) with _ | ⟨p0, _ | ⟨p1, _ | ⟨p2, rest⟩⟩⟩ <;>
      simp only [hs]
    · refine ⟨by simp, by simp, ?_⟩
      constructor
      · intro hne
        exact absurd rfl hne
      · rintro ⟨-, q0, q1, q2, qrest, heq, -, -⟩
        simp at heq
    · refine ⟨by simp, by simp, ?_⟩
      constructor
      · intro hne
        exact absurd rfl hne
      · rintro ⟨-, q0, q1, q2, qrest, heq, -, -⟩
        simp at heq
    · refine ⟨by simp, by simp, ?_⟩
      constructor
      · intro hne
        exact absurd rfl hne
      · rintro ⟨-, q0, q1, q2, qrest, heq, -, -⟩
        simp at heq
    · split_ifs with hc
      · refine ⟨by simp, ?_, ?_⟩
        · intro m hm
          rcases List.mem_singleton.mp hm with rfl
          exact ⟨rfl, rfl⟩
        · exact iff_of_true (by simp) ⟨by omega, p0, p1, p2, rest, rfl, hc.1, hc.2⟩
      · refine ⟨by simp, by simp, ?_⟩
        constructor
        · intro hne
          exact absurd rfl hne
        · rintro ⟨-, q0, q1, q2, qrest, heq, hq1, hq2⟩
          rw [List.cons.injEq, List.cons.injEq, List.cons.injEq] at heq
          obtain ⟨rfl, rfl, rfl, -⟩ := heq
          exact (hc ⟨hq1, hq2⟩).elim

set_option maxRecDepth 100000 in
/-- C2 witness: on `highHeadLast` (tallest peak last) the amended condition
holds and the characterization yields the single 0.75-confidence match. -/
theorem C2_witness :
    AppTA.detect_head_and_shoulders highHeadLast ≠ [] ∧
    (⟨"head_and_shoulders", 3 / 4,
      "Head and Shoulders pattern detected - bearish reversal signal",
      .headShoulders (32, 3) (21, 5 / 2) (10, 2)⟩ : PatternMatch).confidence = 3 / 4 :=
  ⟨(C2_head_shoulders highHeadLast).2.2.mpr
      ⟨by decide, (32, 3), (21, 5 / 2), (10, 2), [], by with_unfolding_all decide,
        by decide, by decide⟩,
    ((C2_head_shoulders highHeadLast).2.1 _ (by with_unfolding_all decide)).2⟩

/-! ### C3 — risk level -/

/-- C3 counterexample: the run driven by the services `generate_analysis`
(the claim's first cited source) hard-codes `risk_level = 'medium'`; with
zero detected patterns the claim demands `'low'`. -/
theorem C3_counterexample :
    (TAS.generate_analysis ind0 [] [c0]).toOption.map (fun a => a.risk_level) =
      some "medium" ∧ "medium" ≠ "low" := by
  constructor
  · with_unfolding_all decide
  · decide

/-- C3 (amended): the app service's `_assess_risk` follows the claimed
counting rule — `high` iff at least 2 of the patterns are head-and-shoulders
or double-top, `medium` iff exactly 1, `low` iff 0 — but the services
`generate_analysis` ignores the pattern list entirely and returns the
hard-coded `'medium'` on every successful run. -/
theorem C3_risk_level (patterns : List PatternMatch) (ind : TAS.SvcIndicators)
    (df : List Candle) (hdf : df ≠ []) :
    (AppTA.assess_risk patterns = "high" ↔
      2 ≤ patterns.countP (fun p =>
        p.pattern_type == "head_and_shoulders" || p.pattern_type == "double_top")) ∧
    (AppTA.assess_risk patterns = "medium" ↔
      patterns.countP (fun p =>
        p.pattern_type == "head_and_shoulders" || p.pattern_type == "double_top") = 1) ∧
    (AppTA.assess_risk patterns = "low" ↔
      patterns.countP (fun p =>
        p.pattern_type == "head_and_shoulders" || p.pattern_type == "double_top") = 0) ∧
    (TAS.generate_analysis ind patterns df).toOption.map (fun a => a.risk_level) =
      some "medium" := by
  refine ⟨?_, ?_, ?_, ?_⟩
  · simp only [AppTA.assess_risk]
    split_ifs with h1 h2
    · exact iff_of_true rfl h1
    · exact iff_of_false (by decide) h1
    · exact iff_of_false (by decide) h1
  · simp only [AppTA.assess_risk]
    split_ifs with h1 h2
    · exact iff_of_false (by decide) (by omega)
    · exact iff_of_true rfl h2
    · exact iff_of_false (by decide) h2
  · simp only [AppTA.assess_risk]
    split_ifs with h1 h2
    · exact iff_of_false (by decide) (by omega)
    · exact iff_of_false (by decide) (by omega)
    · exact iff_of_true rfl (by omega)
  · match df with
    | [] => exact absurd rfl hdf
    | d :: ds => rfl

/-- C3 witness: the amended claim applied with no patterns, an empty
indicator snapshot and a one-candle frame. -/
theorem C3_witness :
    (AppTA.assess_risk [] = "low" ↔
      List.countP (fun p =>
        p.pattern_type == "head_and_shoulders" || p.pattern_type == "double_top")
        ([] : List PatternMatch) = 0) ∧
    (TAS.generate_analysis ind0 [] [c0]).toOption.map (fun a => a.risk_level) =
      some "medium" :=
  ⟨(C3_risk_level [] ind0 [c0] (by simp)).2.2.1,
   (C3_risk_level [] ind0 [c0] (by simp)).2.2.2⟩

/-! ### C4 — insufficient data -/

set_option maxRecDepth 100000 in
/-- C4 counterexample: the 10-point strictly-increasing series `tc10`
satisfies the resistance-proximity condition (its last close equals the
10-bar high), yet the successful run reports no pattern at all —
`detect_patterns` is gated on at least 20 candles, so the claimed
support/resistance evaluation never happens for a 10-point series. -/
theorem C4_counterexample :
    |(tc10.map (fun c => c.close)).getLastD 0 -
        listMax (lastN 10 (tc10.map (fun c => c.high)))| /
      listMax (lastN 10 (tc10.map (fun c => c.high))) < 2 / 100 ∧
    (TAS.analyze_symbol tc10).toOption.map (fun r => r.patterns) = some [] := by
  with_unfolding_all decide

/-- C4 (amended): a run fails with the insufficient-data error exactly when
the fetched series has fewer than 10 candles; a 10-candle series succeeds
with RSI, MACD and Bollinger Bands all absent and an empty pattern list
(pattern detection requires at least 20 candles and is not evaluated). -/
theorem C4_insufficient_data (df : List Candle) :
    (TAS.analyze_symbol df = .error .insufficientData ↔ df.length < 10) ∧
    (df.length = 10 →
      ∃ r, TAS.analyze_symbol df = .ok r ∧ r.rsi = none ∧ r.macd = none ∧
        r.bollinger = none ∧ r.patterns = []) := by
  constructor
  · unfold TAS.analyze_symbol
    split_ifs with h
    · exact iff_of_true rfl h
    · refine iff_of_false ?_ h
      intro hbad
      dsimp only at hbad
      split at hbad <;> simp at hbad
  · intro h10
    obtain ⟨d, ds, rfl⟩ : ∃ d ds, df = d :: ds := by
      cases df with
      | nil => simp at h10
      | cons d ds => exact ⟨d, ds, rfl⟩
    have h9 : ds.length = 9 := by simpa using h10
    unfold TAS.analyze_symbol
    rw [if_neg (by omega)]
    simp only [TAS.generate_analysis]
    refine ⟨_, rfl, ?_, ?_, ?_, ?_⟩
    · simp [TAS.calculate_rsi, List.length_map]
      omega
    · simp [TAS.calculate_macd, List.length_map]
      omega
    · simp [TAS.bollinger_core, List.length_map]
      omega
    · simp [TAS.detect_patterns]
      omega

/-- C4 witness: the amended claim applied to the concrete 10-point series
`tc10` and to its 5-point prefix (which does fail). -/
theorem C4_witness :
    tc10.length = 10 ∧
    (∃ r, TAS.analyze_symbol tc10 = .ok r ∧ r.rsi = none ∧ r.macd = none ∧
      r.bollinger = none ∧ r.patterns = []) ∧
    TAS.analyze_symbol (tc10.take 5) = .error .insufficientData :=
  ⟨rfl, (C4_insufficient_data tc10).2 rfl,
    (C4_insufficient_data (tc10.take 5)).1.mpr (by decide)⟩

/-! ### C5 — double-top detection -/

/-- The length of a `filterMap` is the number of elements on which the
function fires. -/
theorem length_filterMap_eq_countP (f : α → Option β) (l : List α) :
    (l.filterMap f).length = l.countP fun a => (f a).isSome := by
  induction l with
  | nil => rfl
  | cons a t ih =>
    cases h : f a with
    | none => simp [List.filterMap_cons, h, List.countP_cons, ih]
    | some b => simp [List.filterMap_cons, h, List.countP_cons, ih]

set_option maxRecDepth 100000 in
/-- C5 counterexample: on `highTriplePeak` (three equal-height peaks, every
pair within 2%) the detector emits two `double_top` matches — the `break`
only leaves the inner loop, so the claim's "at most one per run" fails. -/
theorem C5_counterexample :
    (AppTA.detect_double_top_bottom highTriplePeak).length = 2 := by
  with_unfolding_all decide

/-- C5 (amended): every emitted match is a `double_top` with confidence
exactly 0.7; one match is emitted for each first-peak position `i` that has
some later peak within 2% relative price difference (the inner `break`
stops only that inner scan), so a run emits as many matches as there are
such positions — possibly more than one — and a match exists iff some pair
of peaks is within 2%. -/
theorem C5_double_top (high : List ℚ) :
    (∀ m ∈ AppTA.detect_double_top_bottom high,
      m.pattern_type = "double_top" ∧ m.confidence = 7 / 10) ∧
    (AppTA.detect_double_top_bottom high).length =
      (List.range ((AppTA.peaks high).length - 1)).countP (fun i =>
        (((AppTA.peaks high).drop (i + 1)).find?
          (AppTA.dt_close ((AppTA.peaks high).getD i (0, 0)))).isSome) ∧
    (AppTA.detect_double_top_bottom high ≠ [] ↔
      ∃ i < (AppTA.peaks high).length - 1,
        ∃ q ∈ (AppTA.peaks high).drop (i + 1),
          AppTA.dt_close ((AppTA.peaks high).getD i (0, 0)) q) := by
  have hlen : (AppTA.detect_double_top_bottom high).length =
      (List.range ((AppTA.peaks high).length - 1)).countP (fun i =>
        (((AppTA.peaks high).drop (i + 1)).find?
          (AppTA.dt_close ((AppTA.peaks high).getD i (0, 0)))).isSome) := by
    unfold AppTA.detect_double_top_bottom
    rw [length_filterMap_eq_countP]
    refine List.countP_congr fun i hi => ?_
    simp [Option.isSome_map']
  refine ⟨?_, hlen, ?_⟩
  · intro m hm
    unfold AppTA.detect_double_top_bottom at hm
    rw [List.mem_filterMap] at hm
    obtain ⟨i, hi, hmap⟩ := hm
    rw [Option.map_eq_some'] at hmap
    obtain ⟨q, hq, rfl⟩ := hmap
    exact ⟨rfl, rfl⟩
  · constructor
    · intro hne
      have hpos : 0 < (AppTA.detect_double_top_bottom high).length :=
        List.length_pos.mpr hne
      rw [hlen, List.countP_pos_iff] at hpos
      obtain ⟨i, hi, hp⟩ := hpos
      rw [List.mem_range] at hi
      rw [List.find?_isSome] at hp
      obtain ⟨q, hq, hdt⟩ := hp
      exact ⟨i, hi, q, hq, hdt⟩
    · rintro ⟨i, hi, q, hq, hdt⟩
      apply List.length_pos.mp
      rw [hlen, List.countP_pos_iff]
      exact ⟨i, List.mem_range.mpr hi, List.find?_isSome.mpr ⟨q, hq, hdt⟩⟩

set_option maxRecDepth 100000 in
/-- C5 witness: the amended characterization applied to `highTriplePeak`,
with the concrete qualifying pair `(10, 2)`/`(21, 2)`. -/
theorem C5_witness :
    AppTA.detect_double_top_bottom highTriplePeak ≠ [] ∧
    (⟨"double_top", 7 / 10, "Double Top pattern detected - bearish reversal signal",
      .doubleTopPeaks (10, 2) (21, 2)⟩ : PatternMatch).confidence = 7 / 10 :=
  ⟨(C5_double_top highTriplePeak).2.2.mpr
      ⟨0, by with_unfolding_all decide, (21, 2), by with_unfolding_all decide,
        by with_unfolding_all decide⟩,
    ((C5_double_top highTriplePeak).1 _ (by with_unfolding_all decide)).2⟩

/-! ### C6 — moving-average signal emission -/

/-- Signals produced by the services RSI block are RSI signals. -/
theorem rsi_signals_reason (r : Option ℚ) (s : Signal) (hs : s ∈ TAS.rsi_signals r) :
    s.reason ≠ .emaUp ∧ s.reason ≠ .emaDown := by
  cases r with
  | none => simp [TAS.rsi_signals] at hs
  | some v =>
    simp only [TAS.rsi_signals] at hs
    split_ifs at hs <;> simp_all

/-- Signals produced by the services MACD block are MACD signals. -/
theorem macd_signals_reason (m sg : Option ℚ) (s : Signal)
    (hs : s ∈ TAS.macd_signals m sg) :
    s.reason ≠ .emaUp ∧ s.reason ≠ .emaDown := by
  cases m with
  | none => simp [TAS.macd_signals] at hs
  | some mv =>
    cases sg with
    | none => simp [TAS.macd_signals] at hs
    | some sv =>
      simp only [TAS.macd_signals] at hs
      split_ifs at hs <;> simp_all

/-- C6 counterexample: `ema_20 = 100.5, ema_50 = 100` lies inside the 1%
band, where the claim says no MA-based signal is emitted; the app service's
MA block emits a buy/medium "upward trend" signal there (plain `>`). -/
theorem C6_counterexample :
    ¬((201 : ℚ) / 2 > 100 * (101 / 100)) ∧
    AppTA.ma_signals (some (201 / 2)) (some 100) = [⟨.buy, .medium, .emaUp⟩] := by
  constructor
  · norm_num
  · with_unfolding_all decide

/-- C6 (amended): the app service's MA block carries no hysteresis —
whenever both EMAs are present and nonzero it emits exactly one signal,
buy/medium ("upward trend") iff `ema_20 > ema_50` and sell/medium
("downward trend") otherwise, and emits nothing when either is absent;
the services `generate_analysis` never emits an MA-based signal at all
(its signals come only from the RSI and MACD blocks). -/
theorem C6_ma_signals (a b : ℚ) (o : Option ℚ) (ha : a ≠ 0) (hb : b ≠ 0) :
    (b < a → AppTA.ma_signals (some a) (some b) = [⟨.buy, .medium, .emaUp⟩]) ∧
    (a ≤ b → AppTA.ma_signals (some a) (some b) = [⟨.sell, .medium, .emaDown⟩]) ∧
    AppTA.ma_signals none o = [] ∧
    AppTA.ma_signals o none = [] ∧
    (∀ (ind : TAS.SvcIndicators) (pats : List PatternMatch) (df : List Candle)
      (an : SvcAnalysis), TAS.generate_analysis ind pats df = .ok an →
        ∀ s ∈ an.signals, s.reason ≠ .emaUp ∧ s.reason ≠ .emaDown) := by
  refine ⟨?_, ?_, ?_, ?_, ?_⟩
  · intro hlt
    simp only [AppTA.ma_signals, AppTA.truthy, Option.getD_some, decide_eq_true_eq]
    rw [if_pos ⟨ha, hb⟩, if_pos hlt]
  · intro hle
    simp only [AppTA.ma_signals, AppTA.truthy, Option.getD_some, decide_eq_true_eq]
    rw [if_pos ⟨ha, hb⟩, if_neg (not_lt.mpr hle)]
  · rfl
  · cases o with
    | none => rfl
    | some x => simp [AppTA.ma_signals, AppTA.truthy]
  · intro ind pats df an hok s hs
    cases df with
    | nil => simp [TAS.generate_analysis] at hok
    | cons d ds =>
      simp only [TAS.generate_analysis, Except.ok.injEq] at hok
      subst hok
      rw [List.mem_append] at hs
      rcases hs with h | h
      · exact rsi_signals_reason ind.rsi s h
      · exact macd_signals_reason ind.macd ind.signal s h

/-- C6 witness: the amended MA-block characterization at `ema_20 = 2,
ema_50 = 1`. -/
theorem C6_witness :
    (2 : ℚ) ≠ 0 ∧ (1 : ℚ) ≠ 0 ∧
    AppTA.ma_signals (some 2) (some 1) = [⟨.buy, .medium, .emaUp⟩] :=
  ⟨by norm_num, by norm_num,
    (C6_ma_signals 2 1 none (by norm_num) (by norm_num)).1 (by norm_num)⟩

/-! ### C7 — RSI bounds and absence threshold -/

/-- The RSI output formula lies in `[0, 100]` whenever the averaged gain and
loss are nonnegative (the guarded denominator is positive). -/
theorem rsi_formula_bounds (gain loss : ℚ) (hg : 0 ≤ gain) (hl : 0 ≤ loss) :
    0 ≤ 100 - 100 / (1 + gain / (if loss = 0 then 1 / 2 ^ 52 else loss)) ∧
    100 - 100 / (1 + gain / (if loss = 0 then 1 / 2 ^ 52 else loss)) ≤ 100 := by
  have hlg : 0 < (if loss = 0 then (1 : ℚ) / 2 ^ 52 else loss) := by
    split_ifs with h
    · norm_num
    · exact lt_of_le_of_ne hl (Ne.symm h)
  have hrs : 0 ≤ gain / (if loss = 0 then (1 : ℚ) / 2 ^ 52 else loss) :=
    div_nonneg hg (le_of_lt hlg)
  have h1 : (0 : ℚ) < 1 + gain / (if loss = 0 then (1 : ℚ) / 2 ^ 52 else loss) := by
    linarith
  have h2 : 100 / (1 + gain / (if loss = 0 then (1 : ℚ) / 2 ^ 52 else loss)) ≤ 100 := by
    rw [div_le_iff₀ h1]
    nlinarith
  have h3 : 0 < 100 / (1 + gain / (if loss = 0 then (1 : ℚ) / 2 ^ 52 else loss)) :=
    div_pos (by norm_num) h1
  constructor <;> linarith

set_option maxRecDepth 100000 in
/-- C7 counterexample: the claim says RSI is absent below 15 observations,
but the 14-point series `p14` already yields a value (600/7 ≈ 85.7): the
`where`-coerced leading delta fills the 14-wide rolling window. -/
theorem C7_counterexample :
    p14.length = 14 ∧ p14.length < 15 ∧ TAS.calculate_rsi p14 = some (600 / 7) := by
  refine ⟨rfl, by decide, ?_⟩
  with_unfolding_all decide

/-- C7 (amended): RSI is absent exactly below 14 observations (the leading
undefined delta is coerced to zero gain/loss, so 14 prices already fill the
window), and every present RSI value lies in `[0, 100]`; the zero-loss case
is guarded by the tiny positive denominator `2⁻⁵²`, never a crash or an
infinity. -/
theorem C7_rsi (prices : List ℚ) :
    (prices.length < 14 → TAS.calculate_rsi prices = none) ∧
    (14 ≤ prices.length → (TAS.calculate_rsi prices).isSome) ∧
    (∀ r, TAS.calculate_rsi prices = some r → 0 ≤ r ∧ r ≤ 100) := by
  refine ⟨?_, ?_, ?_⟩
  · intro h
    rw [TAS.calculate_rsi, if_pos h]
  · intro h
    rw [TAS.calculate_rsi, if_neg (not_lt.mpr h)]
    rfl
  · intro r hr
    by_cases hlen : prices.length < 14
    · rw [TAS.calculate_rsi, if_pos hlen] at hr
      simp at hr
    · rw [TAS.calculate_rsi, if_neg hlen] at hr
      rw [Option.some.injEq] at hr
      subst hr
      refine rsi_formula_bounds _ _ ?_ ?_
      · apply div_nonneg _ (by norm_num)
        apply List.sum_nonneg
        intro x hx
        rw [List.mem_map] at hx
        obtain ⟨p, hp, rfl⟩ := hx
        have hp' := List.mem_of_mem_drop hp
        rw [List.mem_map] at hp'
        obtain ⟨i, -, rfl⟩ := hp'
        by_cases hi : i = 0
        · simp [hi]
        · simp only [if_neg hi]
          exact le_max_right _ _
      · apply div_nonneg _ (by norm_num)
        apply List.sum_nonneg
        intro x hx
        rw [List.mem_map] at hx
        obtain ⟨p, hp, rfl⟩ := hx
        have hp' := List.mem_of_mem_drop hp
        rw [List.mem_map] at hp'
        obtain ⟨i, -, rfl⟩ := hp'
        by_cases hi : i = 0
        · simp [hi]
        · simp only [if_neg hi]
          exact le_max_right _ _

set_option maxRecDepth 100000 in
/-- C7 witness: the amended claim applied at the 3-point series (absent) and
at `p14` (present, value 600/7 inside the bounds). -/
theorem C7_witness :
    TAS.calculate_rsi p3 = none ∧ ((0 : ℚ) ≤ 600 / 7 ∧ (600 : ℚ) / 7 ≤ 100) :=
  ⟨(C7_rsi p3).1 (by decide),
    (C7_rsi p14).2.2 (600 / 7) (by with_unfolding_all decide)⟩

/-! ### C8 — Bollinger band ordering -/

/-- C8 (confirmed): all three bands are absent below the 20-observation
period, and whenever the triple `(upper, middle, lower)` is present it
satisfies `lower ≤ middle ≤ upper` (the half-width `2·√variance` is
nonnegative). -/
theorem C8_bollinger (prices : List ℚ) :
    (prices.length < 20 → TAS.calculate_bollinger_bands prices = none) ∧
    (∀ u m l : ℝ, TAS.calculate_bollinger_bands prices = some (u, m, l) →
      l ≤ m ∧ m ≤ u) := by
  constructor
  · intro h
    rw [TAS.calculate_bollinger_bands, TAS.bollinger_core, if_pos h]
    rfl
  · intro u m l h
    rw [TAS.calculate_bollinger_bands, Option.map_eq_some'] at h
    obtain ⟨p, hp, heq⟩ := h
    rw [Prod.mk.injEq, Prod.mk.injEq] at heq
    obtain ⟨h1, h2, h3⟩ := heq
    subst h1
    subst h2
    subst h3
    have hs := Real.sqrt_nonneg ((p.2 : ℚ) : ℝ)
    constructor <;> linarith

set_option maxRecDepth 100000 in
/-- C8 witness: the theorem applied to the 3-point series (absent) and to 20
flat prices, whose zero-variance window gives the degenerate bands
`(1, 1, 1)`. -/
theorem C8_witness :
    TAS.calculate_bollinger_bands p3 = none ∧ ((1 : ℝ) ≤ 1 ∧ (1 : ℝ) ≤ 1) :=
  ⟨(C8_bollinger p3).1 (by decide),
    (C8_bollinger p20flat).2 1 1 1 (by
      have hc : TAS.bollinger_core p20flat = some (1, 0) := by
        with_unfolding_all decide
      rw [TAS.calculate_bollinger_bands, hc]
      simp [Real.sqrt_zero])⟩

/-! ### C9 — pivot point between the 20-bar low and high -/

/-- The seed of a `max`-fold bounds the fold from below. -/
theorem foldl_max_init_le (xs : List ℚ) (acc : ℚ) : acc ≤ xs.foldl max acc := by
  induction xs generalizing acc with
  | nil => exact le_refl acc
  | cons y ys ih => exact le_trans (le_max_left acc y) (ih (max acc y))

/-- Every element of the folded list bounds a `max`-fold from below. -/
theorem le_foldl_max (xs : List ℚ) (acc a : ℚ) (h : a ∈ xs) : a ≤ xs.foldl max acc := by
  induction xs generalizing acc with
  | nil => cases h
  | cons y ys ih =>
    rcases List.mem_cons.mp h with rfl | h'
    · exact le_trans (le_max_right acc a) (foldl_max_init_le ys (max acc a))
    · exact ih (max acc y) h'

/-- `listMax` bounds every member of the list (Python `max`). -/
theorem le_listMax_of_mem {a : ℚ} {l : List ℚ} (h : a ∈ l) : a ≤ listMax l := by
  cases l with
  | nil => cases h
  | cons x xs =>
    rcases List.mem_cons.mp h with rfl | h'
    · exact foldl_max_init_le xs a
    · exact le_foldl_max xs x a h'

/-- The seed of a `min`-fold bounds the fold from above. -/
theorem foldl_min_le_init (xs : List ℚ) (acc : ℚ) : xs.foldl min acc ≤ acc := by
  induction xs generalizing acc with
  | nil => exact le_refl acc
  | cons y ys ih => exact le_trans (ih (min acc y)) (min_le_left acc y)

/-- A `min`-fold is below every element of the folded list. -/
theorem foldl_min_le (xs : List ℚ) (acc a : ℚ) (h : a ∈ xs) : xs.foldl min acc ≤ a := by
  induction xs generalizing acc with
  | nil => cases h
  | cons y ys ih =>
    rcases List.mem_cons.mp h with rfl | h'
    · exact le_trans (foldl_min_le_init ys (min acc a)) (min_le_right acc a)
    · exact ih (min acc y) h'

/-- `listMin` is below every member of the list (Python `min`). -/
theorem listMin_le_of_mem {a : ℚ} {l : List ℚ} (h : a ∈ l) : listMin l ≤ a := by
  cases l with
  | nil => cases h
  | cons x xs =>
    rcases List.mem_cons.mp h with rfl | h'
    · exact foldl_min_le_init xs a
    · exact foldl_min_le xs x a h'

/-- The last element of a list survives any `drop` that leaves something. -/
theorem getLast_mem_drop : ∀ (xs : List α) (h : xs ≠ []) (k : ℕ), k < xs.length →
    xs.getLast h ∈ xs.drop k := by
  intro xs
  induction xs with
  | nil => intro h; exact absurd rfl h
  | cons x t ih =>
    intro h k hk
    cases k with
    | zero => exact List.getLast_mem h
    | succ k =>
      have ht : t ≠ [] := by
        intro he
        subst he
        simp at hk
      rw [List.drop_succ_cons, List.getLast_cons ht]
      exact ih ht k (by simpa using hk)

/-- `getLastD` on a nonempty list is its `getLast`. -/
theorem getLastD_eq_getLast : ∀ (xs : List α) (h : xs ≠ []) (d : α),
    xs.getLastD d = xs.getLast h
  | [], h, _ => absurd rfl h
  | [_], _, _ => rfl
  | x :: y :: ts, _, d => by
    rw [List.getLastD_cons, List.getLast_cons (List.cons_ne_nil y ts)]
    exact getLastD_eq_getLast (y :: ts) (List.cons_ne_nil y ts) x

/-- The last element of a nonempty list lies in its `lastN n` slice, `n ≥ 1`. -/
theorem getLastD_mem_lastN (xs : List α) (h : xs ≠ []) (n : ℕ) (hn : 1 ≤ n) (d : α) :
    xs.getLastD d ∈ lastN n xs := by
  rw [getLastD_eq_getLast xs h d]
  apply getLast_mem_drop
  have hx : 0 < xs.length := List.length_pos.mpr h
  omega

/-- `getLastD` of a mapped list is the function at the last element. -/
theorem getLastD_map (f : α → β) : ∀ (xs : List α) (h : xs ≠ []) (d : β),
    (xs.map f).getLastD d = f (xs.getLast h)
  | [], h, _ => absurd rfl h
  | [_], _, _ => rfl
  | x :: y :: ts, _, d => by
    rw [List.map_cons, List.getLastD_cons, List.getLast_cons (List.cons_ne_nil y ts)]
    exact getLastD_map f (y :: ts) (List.cons_ne_nil y ts) (f x)

/-- C9 (confirmed): for every non-empty candle series whose candles satisfy
`low ≤ close ≤ high`, the key levels place the pivot point between the first
support level (the 20-bar low) and the first resistance level (the 20-bar
high). -/
theorem C9_pivot (df : List Candle) (hne : df ≠ [])
    (hlc : ∀ c ∈ df, c.low ≤ c.close ∧ c.close ≤ c.high) :
    ∃ p, (TAS.calculate_key_levels df).pivot_point = some p ∧
      (TAS.calculate_key_levels df).support_levels.getD 0 0 ≤ p ∧
      p ≤ (TAS.calculate_key_levels df).resistance_levels.getD 0 0 := by
  obtain ⟨d, ds, rfl⟩ : ∃ d ds, df = d :: ds := by
    cases df with
    | nil => exact absurd rfl hne
    | cons d ds => exact ⟨d, ds, rfl⟩
  have hcons : (d :: ds) ≠ ([] : List Candle) := by simp
  obtain ⟨hl1, hl2⟩ := hlc ((d :: ds).getLast hcons) (List.getLast_mem hcons)
  have hclose : ((d :: ds).map (fun c => c.close)).getLastD 0 =
      ((d :: ds).getLast hcons).close := getLastD_map _ _ hcons 0
  have hlow : ((d :: ds).map (fun c => c.low)).getLastD 0 =
      ((d :: ds).getLast hcons).low := getLastD_map _ _ hcons 0
  have hhigh : ((d :: ds).map (fun c => c.high)).getLastD 0 =
      ((d :: ds).getLast hcons).high := getLastD_map _ _ hcons 0
  have hrl : listMin (lastN 20 ((d :: ds).map (fun c => c.low))) ≤
      ((d :: ds).getLast hcons).low := by
    rw [← hlow]
    exact listMin_le_of_mem (getLastD_mem_lastN _ (by simp) 20 (by norm_num) 0)
  have hrh : ((d :: ds).getLast hcons).high ≤
      listMax (lastN 20 ((d :: ds).map (fun c => c.high))) := by
    rw [← hhigh]
    exact le_listMax_of_mem (getLastD_mem_lastN _ (by simp) 20 (by norm_num) 0)
  simp only [TAS.calculate_key_levels]
  refine ⟨_, rfl, ?_, ?_⟩
  · simp only [List.getD_cons_zero]
    linarith
  · simp only [List.getD_cons_zero]
    linarith

/-- C9 witness: the theorem applied to a one-candle series. -/
theorem C9_witness :
    ∃ p, (TAS.calculate_key_levels [c9w]).pivot_point = some p ∧
      (TAS.calculate_key_levels [c9w]).support_levels.getD 0 0 ≤ p ∧
      p ≤ (TAS.calculate_key_levels [c9w]).resistance_levels.getD 0 0 :=
  C9_pivot [c9w] (by simp) (by
    intro c hc
    rw [List.mem_singleton] at hc
    subst hc
    exact ⟨by norm_num [c9w], by norm_num [c9w]⟩)

/-! ### C10 — totality of the services generate_analysis -/

/-- C10 counterexample: `generate_analysis` reads
`df['close'].iloc[-1]` before entering its `try` block, so on an empty
frame the `IndexError` propagates to the caller — the function is not
total. -/
theorem C10_counterexample :
    TAS.generate_analysis ind0 [] [] = .error "IndexError" := rfl

/-- C10 (amended): `generate_analysis` propagates an exception exactly on an
empty candle frame (the current-price read precedes the `try` block); for
every non-empty frame it returns a result, and the `except` handler's
fallback — unreachable on well-typed inputs — carries an empty signal list,
empty key levels, trend_direction `'unknown'` and risk_level `'high'`, a
trend value outside the documented set. -/
theorem C10_generate_total (ind : TAS.SvcIndicators) (pats : List PatternMatch)
    (df : List Candle) :
    (df = [] → TAS.generate_analysis ind pats df = .error "IndexError") ∧
    (df ≠ [] → (TAS.generate_analysis ind pats df).toOption.isSome = true) ∧
    (TAS.fallback_analysis.signals = [] ∧
      TAS.fallback_analysis.key_levels = ⟨[], [], none⟩ ∧
      TAS.fallback_analysis.trend_direction = "unknown" ∧
      TAS.fallback_analysis.risk_level = "high") := by
  refine ⟨?_, ?_, rfl, rfl, rfl, rfl⟩
  · intro h
    subst h
    rfl
  · intro h
    cases df with
    | nil => exact absurd rfl h
    | cons d ds => rfl

/-- C10 witness: the amended claim applied to the empty frame (error) and to
a one-candle frame (success). -/
theorem C10_witness :
    TAS.generate_analysis ind0 [] [] = .error "IndexError" ∧
    (TAS.generate_analysis ind0 [] [c0]).toOption.isSome = true :=
  ⟨(C10_generate_total ind0 [] []).1 rfl,
    (C10_generate_total ind0 [] [c0]).2.1 (by simp)⟩
